import Mathlib

/-!
Shallow embedding of `scripts/publish_to_hashnode.py` (a batch publisher of
markdown files to the Hashnode GraphQL API) and proofs about the claims of
its specification.

Conventions of the embedding:
* Python runtime values that flow through the script (YAML frontmatter,
  parsed JSON response bodies) are modelled by the inductive type `Py`.
* Fallible Python operations (attribute access `.get` on a non-dict value,
  `[...]` item access, `in` on a non-container, iteration of a non-iterable,
  `.strip`/`.replace` on a non-string) are modelled in `Except Unit`,
  where `Except.error ()` stands for a raised Python exception that the
  surrounding code does not catch.
* `yaml.safe_load` is third-party library code that is not part of this
  repository; it is abstracted as a parameter
  `loader : String → Except Unit Py` (`Except.error ()` models a raised
  `yaml.YAMLError`, `Except.ok v` the parsed document, with YAML `null`
  represented by `Py.none`).
* Network traffic is injected: each of the three HTTP POSTs made by the
  script receives its response from an `Env` record (`HttpResult.exn`
  models a raised `requests.exceptions.RequestException`; a JSON decoding
  failure of a 200 response is modelled by `Except.error` inside
  `HttpResult.resp` and is treated as caught, because in requests ≥ 2.27
  `JSONDecodeError` is a subclass of `RequestException`).
-/

set_option autoImplicit false
set_option linter.unusedVariables false

namespace Hashnode

/-- Python values as produced by `yaml.safe_load` and `response.json()`. -/
inductive Py where
  | none
  | bool (b : Bool)
  | int (n : Int)
  | str (s : String)
  | list (xs : List Py)
  | dict (kvs : List (String × Py))

/-- Python truthiness of a `Py` value. -/
def truthy : Py → Bool
  | Py.none => false
  | Py.bool b => b
  | Py.int n => n != 0
  | Py.str s => s != ""
  | Py.list xs => !xs.isEmpty
  | Py.dict kvs => !kvs.isEmpty

mutual

/-- Python `repr` of a value (string escaping inside `repr` of strings is not
modelled; all inputs appearing in the claims are plain ASCII without quotes). -/
def pyRepr : Py → String
  | Py.none => "None"
  | Py.bool true => "True"
  | Py.bool false => "False"
  | Py.int n => toString n
  | Py.str s => "'" ++ s ++ "'"
  | Py.list xs => "[" ++ String.intercalate ", " (pyReprList xs) ++ "]"
  | Py.dict kvs => "\x7b" ++ String.intercalate ", " (pyReprKvs kvs) ++ "\x7d"

/-- `repr` of each element of a Python list. -/
def pyReprList : List Py → List String
  | [] => []
  | x :: xs => pyRepr x :: pyReprList xs

/-- `repr` of each `key: value` entry of a Python dict. -/
def pyReprKvs : List (String × Py) → List String
  | [] => []
  | (k, v) :: xs => ("'" ++ k ++ "': " ++ pyRepr v) :: pyReprKvs xs

end

/-- Python `str(...)` of a value (`str` on a list or dict delegates to `repr`). -/
def pyStr : Py → String
  | Py.str s => s
  | v => pyRepr v

/-- Python whitespace predicate for `str.strip()` / the regex class
(ASCII part: space, tab, newline, carriage return, vertical tab, form feed). -/
def isPyWs (c : Char) : Bool :=
  c == ' ' || c == '\t' || c == '\n' || c == '\r' || c == Char.ofNat 11 || c == Char.ofNat 12

/-- Strip characters satisfying `p` from both ends of a string
(Python `str.strip(chars)`). -/
def stripBy (p : Char → Bool) (s : String) : String :=
  String.mk (((s.toList.dropWhile p).reverse.dropWhile p).reverse)

/-- Python `str.strip()` (whitespace). -/
def pyTrim (s : String) : String :=
  stripBy isPyWs s

/-- The chained `.strip('"').strip("'")` applied by the script to freeform
text fields (`Char.ofNat 34` is the double quote, `Char.ofNat 39` the single
quote). -/
def stripQuotes (s : String) : String :=
  stripBy (fun c => c == Char.ofNat 39) (stripBy (fun c => c == Char.ofNat 34) s)

/-- Python `s.replace(old, new)` on character lists, replacing
non-overlapping occurrences left to right.  The `fuel` argument (always
instantiated with the list length, which bounds the recursion) only makes
the recursion structural so that the kernel can evaluate the function. -/
def replaceFuel (old new : List Char) : Nat → List Char → List Char
  | _, [] => []
  | 0, l => l
  | Nat.succ fuel, c :: tl =>
    if !old.isEmpty && List.isPrefixOf old (c :: tl) then
      new ++ replaceFuel old new fuel (List.drop (old.length - 1) tl)
    else
      c :: replaceFuel old new fuel tl

/-- Python `s.replace(old, new)` (the script never calls it with an empty
`old`). -/
def pyReplace (s old new : String) : String :=
  String.mk (replaceFuel old.toList new.toList s.toList.length s.toList)

/-- Python `s.split(sep)` on character lists, with structural fuel as in
`replaceFuel`. -/
def splitFuel (sep : List Char) : Nat → List Char → List (List Char)
  | _, [] => [[]]
  | 0, l => [l]
  | Nat.succ fuel, c :: tl =>
    if !sep.isEmpty && List.isPrefixOf sep (c :: tl) then
      [] :: splitFuel sep fuel (List.drop (sep.length - 1) tl)
    else
      match splitFuel sep fuel tl with
      | [] => [[c]]
      | x :: xs => (c :: x) :: xs

/-- Python `s.split(sep)` for a non-empty separator. -/
def pySplit (s sep : String) : List String :=
  (splitFuel sep.toList s.toList.length s.toList).map String.mk

/-- Python `s.lower()` (ASCII). -/
def lowerStr (s : String) : String :=
  String.mk (s.toList.map Char.toLower)

/-- Python `s.endswith(suffix)`. -/
def endsWithStr (s suffix : String) : Bool :=
  List.isSuffixOf suffix.toList s.toList

/-- Python `v.get(k, d)`: succeeds on dicts, raises `AttributeError`
(modelled as `Except.error ()`) on every other value. -/
def pyGet : Py → String → Py → Except Unit Py
  | Py.dict kvs, k, d => Except.ok ((List.lookup k kvs).getD d)
  | _, _, _ => Except.error ()

/-- Membership test of a needle in a haystack of characters
(Python `sub in s` for strings). -/
def containsSub (needle : List Char) : List Char → Bool
  | [] => needle.isEmpty
  | c :: tl => List.isPrefixOf needle (c :: tl) || containsSub needle tl

/-- Python `k in v`: key test for dicts, element test for lists, substring
test for strings, `TypeError` for the other values. -/
def pyIn (k : String) : Py → Except Unit Bool
  | Py.dict kvs => Except.ok (kvs.any (fun kv => kv.1 == k))
  | Py.list xs => Except.ok (xs.any (fun v => match v with | Py.str s => s == k | _ => false))
  | Py.str s => Except.ok (containsSub k.toList s.toList)
  | _ => Except.error ()

/-- Python `v[k]` for a string key: value for dicts holding the key,
`KeyError`/`TypeError` (modelled as `Except.error ()`) otherwise. -/
def pyItem : Py → String → Except Unit Py
  | Py.dict kvs, k =>
    match List.lookup k kvs with
    | some v => Except.ok v
    | Option.none => Except.error ()
  | _, _ => Except.error ()

/-- Python iteration `for x in v`: elements of a list, characters of a
string, keys of a dict, `TypeError` otherwise. -/
def pyIterate : Py → Except Unit (List Py)
  | Py.list xs => Except.ok xs
  | Py.str s => Except.ok (s.toList.map (fun c => Py.str (String.mk [c])))
  | Py.dict kvs => Except.ok (kvs.map (fun kv => Py.str kv.1))
  | _ => Except.error ()

/-- The `.strip('"').strip("'")` chain applied to a `Py` value: succeeds on
strings, raises `AttributeError` otherwise. -/
def pyStripQuotes : Py → Except Unit Py
  | Py.str s => Except.ok (Py.str (stripQuotes s))
  | _ => Except.error ()

/-!  The frontmatter regular expression

`parse_frontmatter` matches `r'^---\s*\n(.*?)\n---\s*\n(.*)$'` with
`re.DOTALL` against the whole file.  The matcher below reproduces the
backtracking engine on this fixed pattern:

* `wsnlCands l` lists the possible remainders after `\s*\n` has consumed a
  prefix of `l`, in engine preference order (greedy `\s*` first, then
  backtracking): one candidate for every newline inside the leading
  whitespace run, longest consumed prefix first.
* `scanClose` advances the lazy group `(.*?)` one character at a time and
  stops at the first position where `\n---\s*\n` can match; `(.*)$` then
  takes everything that remains (DOTALL), so the first success is final.
-/

/-- Remainders after `\s*\n` consumes a prefix of `l`, in engine preference
order. -/
def wsnlCands (l : List Char) : List (List Char) :=
  let run := l.takeWhile isPyWs
  (((List.range run.length).filter (fun k => run.getD k ' ' == '\n')).reverse).map
    (fun k => l.drop (k + 1))

/-- Scan for the closing `\n---\s*\n`; `acc` is the reversed lazy group
consumed so far.  Returns `(group1, group2)` at the first close. -/
def scanClose (acc : List Char) : List Char → Option (List Char × List Char)
  | [] => Option.none
  | c :: tl =>
    match c, tl with
    | '\n', '-' :: '-' :: '-' :: rest =>
      match wsnlCands rest with
      | r :: _ => some (acc.reverse, r)
      | [] => scanClose (c :: acc) tl
    | _, _ => scanClose (c :: acc) tl

/-- Full match of `r'^---\s*\n(.*?)\n---\s*\n(.*)$'` (DOTALL, anchored by
`re.match`): returns the two groups, or `Option.none` when the regex does not
match. -/
def frontmatterMatch (content : String) : Option (String × String) :=
  match content.toList with
  | '-' :: '-' :: '-' :: rest =>
    match List.findSome? (fun cand => scanClose [] cand) (wsnlCands rest) with
    | some (g1, g2) => some (String.mk g1, String.mk g2)
    | Option.none => Option.none
  | _ => Option.none

/-- `parse_frontmatter` (lines 40-60): returns `(frontmatter, body)`.
When the regex does not match, or the YAML loader raises, the result is
`(Py.none, content)` exactly as the Python returns `(None, content)`. -/
def parse_frontmatter (loader : String → Except Unit Py) (content : String) : Py × String :=
  match frontmatterMatch content with
  | Option.none => (Py.none, content)
  | some (fmStr, body) =>
    match loader fmStr with
    | Except.error _ => (Py.none, content)
    | Except.ok v => (v, body)

/-!  Network model

Each HTTP POST made by the script is answered from an injected `Env`.
`HttpResult.exn` models a raised `requests.exceptions.RequestException`
(connection error or timeout); `HttpResult.resp status json` models a
response with the given status code whose `.json()` call yields `json`
(`Except.error ()` = body is not valid JSON). -/

/-- One injected HTTP response. -/
inductive HttpResult where
  | exn
  | resp (status : Nat) (json : Except Unit Py)

/-- The three responses a single `publish_post` run can consume:
the `me { publications }` query, the direct `publication(host:)` query and
the `publishPost` mutation. -/
structure Env where
  meResp : HttpResult
  pubResp : HttpResult
  publishResp : HttpResult

/-- `get_user_info` (lines 63-107): returns the `me` object or `None`. -/
def get_user_info (r : HttpResult) : Except Unit Py :=
  match r with
  | HttpResult.exn => Except.ok Py.none
  | HttpResult.resp status json =>
    if status == 200 then
      match json with
      | Except.error _ => Except.ok Py.none
      | Except.ok data => do
        let hasErr ← pyIn "errors" data
        if hasErr then
          return Py.none
        else
          let hasData ← pyIn "data" data
          if hasData then
            let dv ← pyItem data "data"
            if truthy dv then
              let me ← pyGet dv "me" Py.none
              if truthy me then
                pyItem dv "me"
              else
                return Py.none
            else
              return Py.none
          else
            return Py.none
    else
      Except.ok Py.none

/-- Host normalisation of lines 116 and 129:
`domain.replace("https://", "").replace("http://", "").split("/")[0].strip()`. -/
def normHost (domain : String) : String :=
  pyTrim ((pySplit (pyReplace (pyReplace domain "https://" "") "http://" "") "/").headD "")

/-- The publication-list loop of `get_publication_id` (lines 124-144).
Returns `some pid` on an early `return`, `Option.none` when the loop falls
through (the debug printing loop that follows performs a subset of the same
accesses and cannot raise when this loop completed without raising). -/
def pubLoop (host : String) : List Py → Except Unit (Option Py)
  | [] => Except.ok Option.none
  | pub_edge :: rest => do
    let pub ← pyGet pub_edge "node" (Py.dict [])
    let pub_url ← pyGet pub "url" (Py.str "")
    if truthy pub_url then
      match pub_url with
      | Py.str u =>
        let pub_host := normHost u
        if lowerStr pub_host == lowerStr host then
          let pid ← pyGet pub "id" Py.none
          Except.ok (some pid)
        else if endsWithStr host ".hashnode.dev" then
          let hws := lowerStr (pyReplace host ".hashnode.dev" "")
          let pws := lowerStr (pyReplace pub_host ".hashnode.dev" "")
          if hws == pws then
            let pid ← pyGet pub "id" Py.none
            Except.ok (some pid)
          else
            pubLoop host rest
        else
          pubLoop host rest
      | _ => Except.error ()
    else
      pubLoop host rest

/-- The direct `publication(host:)` fallback query of `get_publication_id`
(lines 155-188).  A GraphQL error list is only printed (execution falls
through to the final `return None`); note the unguarded
`data["data"]["publication"]["id"]` item access. -/
def directPubQuery (r : HttpResult) : Except Unit Py :=
  match r with
  | HttpResult.exn => Except.ok Py.none
  | HttpResult.resp status json =>
    if status == 200 then
      match json with
      | Except.error _ => Except.ok Py.none
      | Except.ok data => do
        let hasErr ← pyIn "errors" data
        if hasErr then
          return Py.none
        else
          let hasData ← pyIn "data" data
          if hasData then
            let dv ← pyItem data "data"
            if truthy dv then
              let p ← pyGet dv "publication" Py.none
              if truthy p then
                let pub ← pyItem dv "publication"
                pyItem pub "id"
              else
                return Py.none
            else
              return Py.none
          else
            return Py.none
    else
      Except.ok Py.none

/-- `get_publication_id` (lines 110-188): method 1 searches the
authenticated user's publication list (exact host match first, then the
`.hashnode.dev`-stripped comparison, which is attempted only when the
requested host ends with `.hashnode.dev`); method 2 is the direct by-host
query. -/
def get_publication_id (env : Env) (domain : String) : Except Unit Py := do
  let host := normHost domain
  let user_info ← get_user_info env.meResp
  let m1 ←
    if truthy user_info then do
      let pubsO ← pyGet user_info "publications" (Py.dict [])
      let edges ← pyGet pubsO "edges" (Py.list [])
      let pubs ← pyIterate edges
      pubLoop host pubs
    else
      Except.ok Option.none
  match m1 with
  | some pid => return pid
  | Option.none => directPubQuery env.pubResp

/-- Tag normalisation of `publish_post` (lines 229-238): comma-separated
strings are split, stripped and filtered; lists keep their truthy elements
and strip their `str()` image; anything else yields no tags; at most the
first 5 entries survive. -/
def tagList (tags : Py) : List String :=
  (match tags with
   | Py.str s => ((pySplit s ",").map pyTrim).filter (fun t => t ≠ "")
   | Py.list xs => (xs.filter truthy).map (fun t => pyTrim (pyStr t))
   | _ => []).take 5

/-- Truth of `k in frontmatter and frontmatter[k]` on a dict. -/
def fmHasTruthy (kvs : List (String × Py)) (k : String) : Bool :=
  match List.lookup k kvs with
  | some v => truthy v
  | Option.none => false

/-- `frontmatter.get(k, d)` on a dict. -/
def fmGet (kvs : List (String × Py)) (k : String) (d : Py) : Py :=
  (List.lookup k kvs).getD d

/-- `frontmatter[k]` on a dict, as used only under a `k in frontmatter`
guard (absent keys default to `Py.none`, unreachable under the guard). -/
def fmItem (kvs : List (String × Py)) (k : String) : Py :=
  (List.lookup k kvs).getD Py.none

/-- The `input_data` object of `publish_post` (lines 256-304), as an
insertion-ordered association list.  `tag_list` is the value computed at
line 238 and `kvs` the entries of the frontmatter dict. -/
def buildInput (publication_id title slug : Py) (content : String)
    (tag_list : List String) (kvs : List (String × Py)) : List (String × Py) :=
  [("publicationId", publication_id), ("title", title), ("slug", slug),
   ("contentMarkdown", Py.str content)]
  ++ (if !tag_list.isEmpty then
        [("tags", Py.list (tag_list.map (fun t => Py.dict [("slug", Py.str t), ("name", Py.str t)])))]
      else [])
  ++ (if fmHasTruthy kvs "subtitle" then
        [("subtitle", Py.str (stripQuotes (pyStr (fmItem kvs "subtitle"))))]
      else [])
  ++ (if fmHasTruthy kvs "cover" then
        [("coverImageURL", Py.str (pyTrim (pyStr (fmItem kvs "cover"))))]
      else if fmHasTruthy kvs "cover_image" then
        [("coverImageURL", Py.str (pyTrim (pyStr (fmItem kvs "cover_image"))))]
      else [])
  ++ [("publishStatus",
       Py.str (if truthy (fmGet kvs "saveAsDraft" (Py.bool false)) then "DRAFT" else "PUBLISHED"))]
  ++ (if truthy (fmGet kvs "hideFromHashnodeCommunity" (Py.bool false)) then
        [("hideFromHashnodeCommunity", Py.bool true)]
      else [])
  ++ (if fmHasTruthy kvs "canonical" then
        [("originalArticleURL", Py.str (pyTrim (pyStr (fmItem kvs "canonical"))))]
      else [])
  ++ (if fmHasTruthy kvs "seoTitle" then
        [("seoTitle", Py.str (stripQuotes (pyStr (fmItem kvs "seoTitle"))))]
      else [])
  ++ (if fmHasTruthy kvs "seoDescription" then
        [("seoDescription", Py.str (stripQuotes (pyStr (fmItem kvs "seoDescription"))))]
      else [])
  ++ (if truthy (fmGet kvs "disableComments" (Py.bool false)) then
        [("disableComments", Py.bool true)]
      else [])
  ++ (if fmHasTruthy kvs "seriesSlug" then
        [("seriesSlug", Py.str (pyTrim (pyStr (fmItem kvs "seriesSlug"))))]
      else [])
  ++ (if truthy (fmGet kvs "enableToc" (Py.bool false)) then
        [("enableTableOfContents", Py.bool true)]
      else [])

/-- Response interpretation of the `publishPost` mutation
(lines 307-341).  Returns `Py.bool true` on `success`, `Py.bool false` on
transport or GraphQL failure or `success: false`, and `Py.none` on the
implicit fall-through (HTTP 200 body without a truthy
`data.publishPost`).  The request payload `input` is only sent, never read
back, so the result depends on it only through the injected response. -/
def sendPublish (r : HttpResult) (title : Py) (input : List (String × Py)) : Except Unit Py :=
  match r with
  | HttpResult.exn => Except.ok (Py.bool false)
  | HttpResult.resp status json =>
    if status == 200 then
      match json with
      | Except.error _ => Except.ok (Py.bool false)
      | Except.ok data => do
        let hasErr ← pyIn "errors" data
        if hasErr then
          return Py.bool false
        else
          let hasData ← pyIn "data" data
          if hasData then
            let dv ← pyItem data "data"
            if truthy dv then
              let pp ← pyGet dv "publishPost" Py.none
              if truthy pp then
                let publish_result ← pyItem dv "publishPost"
                let succ ← pyGet publish_result "success" Py.none
                if truthy succ then
                  let post ← pyGet publish_result "post" (Py.dict [])
                  let _ ← pyGet post "title" title
                  let u ← pyGet post "url" Py.none
                  if truthy u then
                    return Py.bool true
                  else
                    let _ ← pyGet post "slug" Py.none
                    return Py.bool true
                else
                  return Py.bool false
              else
                return Py.none
            else
              return Py.none
          else
            return Py.none
    else
      Except.ok (Py.bool false)

/-- Destructure the frontmatter dict; at its use site in `publish_post` the
value is known to be a dict because the preceding `.get` calls succeeded. -/
def pyDictKvs : Py → Except Unit (List (String × Py))
  | Py.dict kvs => Except.ok kvs
  | _ => Except.error ()

/-- `publish_post` (lines 210-341): resolve the publication, extract and
validate `title`/`slug`, normalise tags, assemble `input_data` and interpret
the mutation response. -/
def publish_post (env : Env) (frontmatter : Py) (content : String) (domain : String) :
    Except Unit Py := do
  let publication_id ← get_publication_id env domain
  if !truthy publication_id then
    return Py.bool false
  else
    let t0 ← pyGet frontmatter "title" (Py.str "")
    let title ← pyStripQuotes t0
    let slug ← pyGet frontmatter "slug" (Py.str "")
    let tags ← pyGet frontmatter "tags" (Py.str "")
    if !truthy title || !truthy slug then
      return Py.bool false
    else
      let tag_list := tagList tags
      let kvs ← pyDictKvs frontmatter
      let input := buildInput publication_id title slug content tag_list kvs
      sendPublish env.publishResp title input

/-- `process_markdown_file` (lines 344-392).  `contents` is `some text`
when the file was read successfully and `Option.none` when reading raised
(the Python catches every read exception and returns `False`).  The returned
`Py` is the Python return value (`False` for every skip, otherwise whatever
`publish_post` returned). -/
def process_markdown_file (loader : String → Except Unit Py) (env : Env)
    (name : String) (contents : Option String) : Except Unit Py := do
  if name == "README.md" then
    return Py.bool false
  else if name == "SETUP.md" then
    return Py.bool false
  else
    match contents with
    | Option.none => return Py.bool false
    | some content =>
      let (frontmatter, markdown_body) := parse_frontmatter loader content
      if !truthy frontmatter then
        return Py.bool false
      else
        let ig ← pyGet frontmatter "ignorePost" (Py.bool false)
        if truthy ig then
          return Py.bool false
        else
          let domain_value ← pyGet frontmatter "domain" Py.none
          match domain_value with
          | Py.none => return Py.bool false
          | dv =>
            let domain := if truthy dv then pyTrim (pyStr dv) else ""
            if domain == "" then
              return Py.bool false
            else
              publish_post env frontmatter markdown_body domain

/-- One entry of the resolved file list of `main`: the listed path, the
basename, whether `Path(...).exists()`, the file text (`Option.none` models
a read error) and the injected network responses its processing consumes. -/
structure BatchFile where
  path : String
  name : String
  fileExists : Bool
  contents : Option String
  env : Env

/-- Observable outcome of a `main` run: the accumulated `results` list,
whether the `publish_results.txt` report was written at all, and the process
exit status. -/
structure MainResult where
  results : List (String × Py)
  reportWritten : Bool
  exitCode : Nat

/-- The per-file loop of `main` (lines 418-428): files failing the
existence check are skipped with `continue` and leave no record. -/
def processLoop (loader : String → Except Unit Py) :
    List BatchFile → List (String × Py) → Except Unit (List (String × Py))
  | [], acc => Except.ok acc
  | f :: fs, acc =>
    if !f.fileExists then
      processLoop loader fs acc
    else do
      let success ← process_markdown_file loader f.env f.name f.contents
      processLoop loader fs (acc ++ [(f.path, success)])

/-- `main` (lines 395-439) after input resolution: with an empty file list
it prints and returns before the report is written (exit status 0);
otherwise it processes every file, writes the report and exits 1 exactly
when some recorded result is falsy. -/
def mainRun (loader : String → Except Unit Py) (files : List BatchFile) :
    Except Unit MainResult :=
  if files.isEmpty then
    Except.ok ⟨[], false, 0⟩
  else do
    let results ← processLoop loader files []
    Except.ok ⟨results, true, if results.any (fun r => !truthy r.2) then 1 else 0⟩

/-!  Helper lemmas -/

/-- `List.lookup` distributes over `++` through `Option.or`. -/
theorem lookup_append (k : String) (l₁ l₂ : List (String × Py)) :
    List.lookup k (l₁ ++ l₂) = (List.lookup k l₁).or (List.lookup k l₂) := by
  induction l₁ with
  | nil => rfl
  | cons x xs ih =>
    cases x with
    | mk a b =>
      simp only [List.cons_append, List.lookup]
      cases k == a <;> simp [ih]

/-- Looking a key up past a head entry with a different key. -/
theorem lookup_cons_ne {k a : String} (b : Py) (l : List (String × Py))
    (h : (k == a) = false) : List.lookup k ((a, b) :: l) = List.lookup k l := by
  simp [List.lookup, h]

/-- Looking a key up at a head entry holding it. -/
theorem lookup_cons_eq {k : String} (b : Py) (l : List (String × Py)) :
    List.lookup k ((k, b) :: l) = some b := by
  simp [List.lookup]

/-!  C6 — frontmatter parser: "no metadata" cases return the input unchanged -/

/-- C6 (confirmed).  When the frontmatter delimiters are absent the regex
does not match (in particular whenever the text does not begin with `---`)
and `parse_frontmatter` returns "no metadata" with the body equal to the
whole original text; likewise when the delimited header exists but the YAML
loader raises a parse error. -/
theorem c6_parser_identity (loader : String → Except Unit Py) (content : String) :
    (content.toList.take 3 ≠ ['-', '-', '-'] → frontmatterMatch content = Option.none) ∧
    (frontmatterMatch content = Option.none →
      parse_frontmatter loader content = (Py.none, content)) ∧
    (∀ fm body, frontmatterMatch content = some (fm, body) →
      loader fm = Except.error () → parse_frontmatter loader content = (Py.none, content)) := by
  refine ⟨?_, ?_, ?_⟩
  · intro h
    unfold frontmatterMatch
    split
    · rename_i rest heq
      exact absurd (by rw [heq]; rfl) h
    · rfl
  · intro h
    unfold parse_frontmatter
    rw [h]
  · intro fm body hm hl
    simp [parse_frontmatter, hm, hl]

/-- C6 witness: both "no metadata" branches evaluated on concrete inputs
(no delimiters; a delimited header whose loader raises). -/
theorem c6_parser_identity_witness :
    parse_frontmatter (fun _ => Except.error ()) "hello world" = (Py.none, "hello world") ∧
    parse_frontmatter (fun _ => Except.error ()) "---\ntitle: x\n---\nbody" =
      (Py.none, "---\ntitle: x\n---\nbody") :=
  ⟨(c6_parser_identity (fun _ => Except.error ()) "hello world").2.1 (by decide),
   (c6_parser_identity (fun _ => Except.error ()) "---\ntitle: x\n---\nbody").2.2
     "title: x" "body" (by decide) rfl⟩

/-!  C5 — tag normalisation -/

/-- C5 counterexample.  The claim says normalisation "trims each entry and
drops empty entries" for list-valued `tags` as well; but the Python drops
only entries that are falsy *before* trimming
(`[str(tag).strip() for tag in tags if tag]`), so the whitespace-only entry
`" "` survives trimming as the empty tag `""`. -/
theorem c5_counterexample : tagList (Py.list [Py.str " "]) = [""] := by decide

/-- C5 (corrected).  At most 5 tags survive; for comma-separated strings
every surviving tag is a trimmed split fragment and nonempty; for lists
every surviving tag is the trimmed `str()` image of a truthy element
(possibly empty); the claim's concrete string example normalises as stated;
and the surviving tags are sent as `(slug = t, name = t)` pairs. -/
theorem c5_tag_normalisation :
    (∀ tags : Py, (tagList tags).length ≤ 5) ∧
    (∀ (s : String), ∀ t ∈ tagList (Py.str s),
      t ≠ "" ∧ ∃ u ∈ pySplit s ",", t = pyTrim u) ∧
    (∀ (xs : List Py), ∀ t ∈ tagList (Py.list xs),
      ∃ v ∈ xs, truthy v = true ∧ t = pyTrim (pyStr v)) ∧
    tagList (Py.str "a, b, b ,  ,c,d,e,f") = ["a", "b", "b", "c", "d"] ∧
    (∀ (pid title slug : Py) (content : String) (ts : List String) (kvs : List (String × Py)),
      ts ≠ [] →
      List.lookup "tags" (buildInput pid title slug content ts kvs) =
        some (Py.list (ts.map (fun t => Py.dict [("slug", Py.str t), ("name", Py.str t)])))) := by
  refine ⟨?_, ?_, ?_, by decide, ?_⟩
  · intro tags
    unfold tagList
    exact List.length_take_le 5 _
  · intro s t ht
    unfold tagList at ht
    have h1 := List.mem_of_mem_take ht
    have h2 := List.mem_filter.mp h1
    obtain ⟨u, hu, hut⟩ := List.mem_map.mp h2.1
    exact ⟨of_decide_eq_true h2.2, u, hu, hut.symm⟩
  · intro xs t ht
    unfold tagList at ht
    have h1 := List.mem_of_mem_take ht
    obtain ⟨v, hv, hvt⟩ := List.mem_map.mp h1
    have h2 := List.mem_filter.mp hv
    exact ⟨v, h2.1, h2.2, hvt.symm⟩
  · intro pid title slug content ts kvs hts
    have hne : (!ts.isEmpty) = true := by
      cases ts
      · exact absurd rfl hts
      · rfl
    unfold buildInput
    simp only [lookup_append]
    rw [lookup_cons_ne _ _ (by decide), lookup_cons_ne _ _ (by decide),
      lookup_cons_ne _ _ (by decide), lookup_cons_ne _ _ (by decide)]
    rw [if_pos hne, lookup_cons_eq]
    rfl

/-- C5 witness: the amended normalisation evaluated on the claim's concrete
string, a concrete list and a concrete `buildInput` call. -/
theorem c5_tag_normalisation_witness :
    tagList (Py.str "a, b, b ,  ,c,d,e,f") = ["a", "b", "b", "c", "d"] ∧
    List.lookup "tags" (buildInput Py.none Py.none Py.none "" ["a"] []) =
      some (Py.list [Py.dict [("slug", Py.str "a"), ("name", Py.str "a")]]) :=
  ⟨c5_tag_normalisation.2.2.2.1,
   c5_tag_normalisation.2.2.2.2 Py.none Py.none Py.none "" ["a"] [] (by decide)⟩

/-!  C4 — publication resolution for `myblog` vs `myblog.hashnode.dev` -/

/-- The `me` response whose publication list holds one publication with id
`p1` and url `https://myblog.hashnode.dev`. -/
def meDataHosted : Py :=
  Py.dict [("data", Py.dict [("me", Py.dict
    [("id", Py.str "u1"), ("username", Py.str "u"),
     ("publications", Py.dict [("edges", Py.list
       [Py.dict [("node", Py.dict
         [("id", Py.str "p1"), ("url", Py.str "https://myblog.hashnode.dev")])]])])])])]

/-- The `me` response whose publication list holds one publication with id
`p1` and url `https://myblog` (host without the free-tier suffix). -/
def meDataBare : Py :=
  Py.dict [("data", Py.dict [("me", Py.dict
    [("id", Py.str "u1"), ("username", Py.str "u"),
     ("publications", Py.dict [("edges", Py.list
       [Py.dict [("node", Py.dict
         [("id", Py.str "p1"), ("url", Py.str "https://myblog")])]])])])])]

/-- Environment for the C4 counterexample: the publication list holds host
`myblog.hashnode.dev` and the direct by-host fallback finds nothing. -/
def envC4 : Env :=
  ⟨HttpResult.resp 200 (Except.ok meDataHosted),
   HttpResult.resp 200 (Except.ok (Py.dict [("data", Py.dict [("publication", Py.none)])])),
   HttpResult.exn⟩

/-- C4 counterexample.  The claim says that for requested domain `myblog`
and a publication list containing only host `myblog.hashnode.dev`,
resolution succeeds via the suffix-tolerant comparison without the direct
by-host fallback.  In the code the suffix branch fires only when the
*requested* host ends with `.hashnode.dev`, so with a fallback that finds
nothing the whole resolution returns `None` — the list comparison never
matched. -/
theorem c4_counterexample : get_publication_id envC4 "myblog" = Except.ok Py.none := rfl

/-- C4 (corrected).  The suffix-tolerant comparison applies only when the
requested host ends with `.hashnode.dev`: requested `myblog.hashnode.dev`
against publication host `myblog` resolves to `p1` from the list alone,
whatever the fallback would answer; requested `myblog` against publication
host `myblog.hashnode.dev` is decided entirely by the direct by-host
fallback query. -/
theorem c4_suffix_resolution :
    (∀ (pr er : HttpResult),
      get_publication_id ⟨HttpResult.resp 200 (Except.ok meDataBare), pr, er⟩
        "myblog.hashnode.dev" = Except.ok (Py.str "p1")) ∧
    (∀ (pr er : HttpResult),
      get_publication_id ⟨HttpResult.resp 200 (Except.ok meDataHosted), pr, er⟩
        "myblog" = directPubQuery pr) :=
  ⟨fun pr er => rfl, fun pr er => rfl⟩

/-- C4 witness: the amended resolution at concrete fallback responses (the
fallback answering with id `q2` is the one that decides the `myblog` case). -/
theorem c4_suffix_resolution_witness :
    get_publication_id ⟨HttpResult.resp 200 (Except.ok meDataBare), HttpResult.exn,
      HttpResult.exn⟩ "myblog.hashnode.dev" = Except.ok (Py.str "p1") ∧
    get_publication_id ⟨HttpResult.resp 200 (Except.ok meDataHosted),
      HttpResult.resp 200 (Except.ok (Py.dict [("data", Py.dict [("publication",
        Py.dict [("id", Py.str "q2"), ("url", Py.str "https://myblog")])])])),
      HttpResult.exn⟩ "myblog" = Except.ok (Py.str "q2") :=
  ⟨c4_suffix_resolution.1 HttpResult.exn HttpResult.exn,
   by rw [c4_suffix_resolution.2]; rfl⟩

/-!  C7 — presence of fields in the outgoing publish request -/

/-- `Option.or` with `Option.none` on the left. -/
theorem hnNoneOr (o : Option Py) : (Option.none).or o = o := rfl

/-- `Option.or` with `Option.none` on the right. -/
theorem hnOrNone (o : Option Py) : o.or Option.none = o := by cases o <;> rfl

/-- Looking up a key that an optional single-entry piece does not carry. -/
theorem lookup_if_single_ne {c : Prop} [Decidable c] {k a : String} (v : Py)
    (h : (k == a) = false) :
    List.lookup k (if c then [(a, v)] else []) = Option.none := by
  split
  · simp [List.lookup, h]
  · rfl

/-- Looking up the key of an optional single-entry piece. -/
theorem lookup_if_single_eq {c : Prop} [Decidable c] {k : String} (v : Py) :
    List.lookup k (if c then [(k, v)] else []) = if c then some v else Option.none := by
  split <;> simp [List.lookup]

/-- Looking up a key that a two-way optional piece does not carry. -/
theorem lookup_if2_ne {c₁ c₂ : Prop} [Decidable c₁] [Decidable c₂] {k a : String}
    (v₁ v₂ : Py) (h : (k == a) = false) :
    List.lookup k (if c₁ then [(a, v₁)] else if c₂ then [(a, v₂)] else []) = Option.none := by
  split
  · simp [List.lookup, h]
  · split
    · simp [List.lookup, h]
    · rfl

/-- Looking up the key of a two-way optional piece. -/
theorem lookup_if2_eq {c₁ c₂ : Prop} [Decidable c₁] [Decidable c₂] {k : String} (v₁ v₂ : Py) :
    List.lookup k (if c₁ then [(k, v₁)] else if c₂ then [(k, v₂)] else []) =
      if c₁ then some v₁ else if c₂ then some v₂ else Option.none := by
  split
  · simp [List.lookup]
  · split <;> simp [List.lookup]

/-- C7 counterexample.  The claim says every optional field appears in the
request if and only if its frontmatter key is present and truthy; but with
`tags: ","` the key `tags` is present and truthy (a nonempty string) while
the normalised tag list is empty, so no `tags` field is sent. -/
theorem c7_counterexample :
    fmHasTruthy [("title", Py.str "t"), ("slug", Py.str "s"), ("tags", Py.str ",")] "tags" = true ∧
    List.lookup "tags" (buildInput (Py.str "p") (Py.str "t") (Py.str "s") "body"
      (tagList (fmGet [("title", Py.str "t"), ("slug", Py.str "s"), ("tags", Py.str ",")]
        "tags" (Py.str "")))
      [("title", Py.str "t"), ("slug", Py.str "s"), ("tags", Py.str ",")]) = Option.none :=
  ⟨by decide, rfl⟩

set_option maxHeartbeats 4000000

/-- C7 (corrected).  `publishStatus` is always present (`DRAFT` exactly when
`saveAsDraft` is truthy, else `PUBLISHED`); each optional text field and the
cover image appear iff their frontmatter key is present and truthy; the
boolean flags appear iff truthy and then only as the explicit value `true`,
never `false`; but `tags` appears iff the *normalised* tag list is
non-empty, which is not equivalent to the `tags` key being present and
truthy. -/
theorem c7_optional_fields (pid title slug : Py) (content : String)
    (kvs : List (String × Py)) (inp : List (String × Py))
    (hinp : inp = buildInput pid title slug content
      (tagList (fmGet kvs "tags" (Py.str ""))) kvs) :
    List.lookup "publishStatus" inp = some (Py.str
      (if truthy (fmGet kvs "saveAsDraft" (Py.bool false)) then "DRAFT" else "PUBLISHED")) ∧
    (List.lookup "subtitle" inp).isSome = fmHasTruthy kvs "subtitle" ∧
    (List.lookup "coverImageURL" inp).isSome =
      (fmHasTruthy kvs "cover" || fmHasTruthy kvs "cover_image") ∧
    (List.lookup "originalArticleURL" inp).isSome = fmHasTruthy kvs "canonical" ∧
    (List.lookup "seoTitle" inp).isSome = fmHasTruthy kvs "seoTitle" ∧
    (List.lookup "seoDescription" inp).isSome = fmHasTruthy kvs "seoDescription" ∧
    (List.lookup "seriesSlug" inp).isSome = fmHasTruthy kvs "seriesSlug" ∧
    (List.lookup "tags" inp).isSome = !(tagList (fmGet kvs "tags" (Py.str ""))).isEmpty ∧
    List.lookup "hideFromHashnodeCommunity" inp =
      (if truthy (fmGet kvs "hideFromHashnodeCommunity" (Py.bool false))
       then some (Py.bool true) else Option.none) ∧
    List.lookup "disableComments" inp =
      (if truthy (fmGet kvs "disableComments" (Py.bool false))
       then some (Py.bool true) else Option.none) ∧
    List.lookup "enableTableOfContents" inp =
      (if truthy (fmGet kvs "enableToc" (Py.bool false))
       then some (Py.bool true) else Option.none) := by
  subst hinp
  refine ⟨?_, ?_, ?_, ?_, ?_, ?_, ?_, ?_, ?_, ?_, ?_⟩
  · simp [buildInput, lookup_append, lookup_if_single_ne, lookup_if2_ne,
      lookup_if_single_eq, lookup_if2_eq, List.lookup, hnNoneOr, hnOrNone]
  · cases h : fmHasTruthy kvs "subtitle" <;>
      simp [buildInput, lookup_append, lookup_if_single_ne, lookup_if2_ne,
        lookup_if_single_eq, lookup_if2_eq, List.lookup, hnNoneOr, hnOrNone, h]
  · cases h₁ : fmHasTruthy kvs "cover" <;> cases h₂ : fmHasTruthy kvs "cover_image" <;>
      simp [buildInput, lookup_append, lookup_if_single_ne, lookup_if2_ne,
        lookup_if_single_eq, lookup_if2_eq, List.lookup, hnNoneOr, hnOrNone, h₁, h₂]
  · cases h : fmHasTruthy kvs "canonical" <;>
      simp [buildInput, lookup_append, lookup_if_single_ne, lookup_if2_ne,
        lookup_if_single_eq, lookup_if2_eq, List.lookup, hnNoneOr, hnOrNone, h]
  · cases h : fmHasTruthy kvs "seoTitle" <;>
      simp [buildInput, lookup_append, lookup_if_single_ne, lookup_if2_ne,
        lookup_if_single_eq, lookup_if2_eq, List.lookup, hnNoneOr, hnOrNone, h]
  · cases h : fmHasTruthy kvs "seoDescription" <;>
      simp [buildInput, lookup_append, lookup_if_single_ne, lookup_if2_ne,
        lookup_if_single_eq, lookup_if2_eq, List.lookup, hnNoneOr, hnOrNone, h]
  · cases h : fmHasTruthy kvs "seriesSlug" <;>
      simp [buildInput, lookup_append, lookup_if_single_ne, lookup_if2_ne,
        lookup_if_single_eq, lookup_if2_eq, List.lookup, hnNoneOr, hnOrNone, h]
  · cases h : tagList (fmGet kvs "tags" (Py.str "")) <;>
      simp [buildInput, lookup_append, lookup_if_single_ne, lookup_if2_ne,
        lookup_if_single_eq, lookup_if2_eq, List.lookup, hnNoneOr, hnOrNone, h]
  · cases h : truthy (fmGet kvs "hideFromHashnodeCommunity" (Py.bool false)) <;>
      simp [buildInput, lookup_append, lookup_if_single_ne, lookup_if2_ne,
        lookup_if_single_eq, lookup_if2_eq, List.lookup, hnNoneOr, hnOrNone, h]
  · cases h : truthy (fmGet kvs "disableComments" (Py.bool false)) <;>
      simp [buildInput, lookup_append, lookup_if_single_ne, lookup_if2_ne,
        lookup_if_single_eq, lookup_if2_eq, List.lookup, hnNoneOr, hnOrNone, h]
  · cases h : truthy (fmGet kvs "enableToc" (Py.bool false)) <;>
      simp [buildInput, lookup_append, lookup_if_single_ne, lookup_if2_ne,
        lookup_if_single_eq, lookup_if2_eq, List.lookup, hnNoneOr, hnOrNone, h]

/-- C7 witness: the amended field-presence characterisation applied to a
concrete frontmatter (truthy `saveAsDraft`, no optional fields). -/
theorem c7_optional_fields_witness :
    List.lookup "publishStatus" (buildInput (Py.str "p") (Py.str "t") (Py.str "s") "c"
      (tagList (fmGet [("saveAsDraft", Py.bool true)] "tags" (Py.str "")))
      [("saveAsDraft", Py.bool true)]) = some (Py.str
      (if truthy (fmGet [("saveAsDraft", Py.bool true)] "saveAsDraft" (Py.bool false))
       then "DRAFT" else "PUBLISHED")) :=
  (c7_optional_fields (Py.str "p") (Py.str "t") (Py.str "s") "c"
    [("saveAsDraft", Py.bool true)] _ rfl).1

/-!  Batch-driver lemmas -/

/-- A single existing file whose processing returns `v` yields a one-line
report and exit status 1 exactly when `v` is falsy. -/
theorem mainRun_single (loader : String → Except Unit Py) (f : BatchFile) (v : Py)
    (hex : f.fileExists = true)
    (hp : process_markdown_file loader f.env f.name f.contents = Except.ok v) :
    mainRun loader [f] =
      Except.ok ⟨[(f.path, v)], true, if !truthy v then 1 else 0⟩ := by
  simp [mainRun, processLoop, hex, hp, Bind.bind, Except.bind]

/-- Files failing the existence check never influence the loop: the loop over
`files` equals the loop over the existing files only. -/
theorem processLoop_filter (loader : String → Except Unit Py) (files : List BatchFile) :
    ∀ acc, processLoop loader files acc =
      processLoop loader (files.filter (fun f => f.fileExists)) acc := by
  induction files with
  | nil => intro acc; rfl
  | cons f fs ih =>
    intro acc
    cases h : f.fileExists with
    | false => simp [processLoop, h, List.filter_cons, ih]
    | true =>
      simp only [processLoop, h, List.filter_cons, if_pos, Bool.not_true, Bool.false_eq_true,
        if_false, ite_true]
      cases hp : process_markdown_file loader f.env f.name f.contents with
      | error e => simp [Bind.bind, Except.bind, hp]
      | ok v => simp [Bind.bind, Except.bind, hp, ih]

/-- The loop appends exactly one record per existing file. -/
theorem processLoop_length (loader : String → Except Unit Py) (files : List BatchFile) :
    ∀ acc res, processLoop loader files acc = Except.ok res →
      res.length = acc.length + (files.filter (fun f => f.fileExists)).length := by
  induction files with
  | nil =>
    intro acc res h
    cases h
    simp
  | cons f fs ih =>
    intro acc res h
    cases hex : f.fileExists with
    | false =>
      rw [processLoop, if_pos (by rw [hex]; rfl)] at h
      simp [List.filter_cons, hex, ih acc res h]
    | true =>
      rw [processLoop, if_neg (by rw [hex]; exact Bool.false_ne_true)] at h
      cases hp : process_markdown_file loader f.env f.name f.contents with
      | error e => rw [hp] at h; cases h
      | ok v =>
        rw [hp] at h
        have := ih (acc ++ [(f.path, v)]) res h
        simp [List.filter_cons, hex] at this ⊢
        omega

/-- Every record of the loop comes from the accumulator or from an existing
file of the list. -/
theorem processLoop_mem (loader : String → Except Unit Py) (files : List BatchFile) :
    ∀ acc res pv, processLoop loader files acc = Except.ok res → pv ∈ res →
      pv ∈ acc ∨ ∃ f ∈ files, f.fileExists = true ∧ f.path = pv.1 := by
  induction files with
  | nil =>
    intro acc res pv h hm
    cases h
    exact Or.inl hm
  | cons f fs ih =>
    intro acc res pv h hm
    cases hex : f.fileExists with
    | false =>
      rw [processLoop, if_pos (by rw [hex]; rfl)] at h
      rcases ih acc res pv h hm with hacc | ⟨g, hg, hge, hgp⟩
      · exact Or.inl hacc
      · exact Or.inr ⟨g, List.mem_cons_of_mem f hg, hge, hgp⟩
    | true =>
      rw [processLoop, if_neg (by rw [hex]; exact Bool.false_ne_true)] at h
      cases hp : process_markdown_file loader f.env f.name f.contents with
      | error e => rw [hp] at h; cases h
      | ok v =>
        rw [hp] at h
        rcases ih (acc ++ [(f.path, v)]) res pv h hm with hacc | ⟨g, hg, hge, hgp⟩
        · rcases List.mem_append.mp hacc with h1 | h2
          · exact Or.inl h1
          · rw [List.mem_singleton] at h2
            subst h2
            exact Or.inr ⟨f, List.mem_cons_self f fs, hex, rfl⟩
        · exact Or.inr ⟨g, List.mem_cons_of_mem f hg, hge, hgp⟩

/-- A loop over files that all fail the existence check records nothing. -/
theorem processLoop_none (loader : String → Except Unit Py) (files : List BatchFile)
    (h : ∀ f ∈ files, f.fileExists = false) :
    ∀ acc, processLoop loader files acc = Except.ok acc := by
  induction files with
  | nil => intro acc; rfl
  | cons f fs ih =>
    intro acc
    rw [processLoop, if_pos (by rw [h f (List.mem_cons_self f fs)]; rfl)]
    exact ih (fun g hg => h g (List.mem_cons_of_mem f hg)) acc

/-!  C1 — a skipped file (ignorePost) and the exit status -/

/-- The YAML loader used by the C1 inputs. -/
def loaderIgnore : String → Except Unit Py :=
  fun s =>
    if s = "ignorePost: true" then Except.ok (Py.dict [("ignorePost", Py.bool true)])
    else Except.error ()

/-- A publish-mutation response with `success: true`. -/
def publishOkData : Py :=
  Py.dict [("data", Py.dict [("publishPost", Py.dict
    [("success", Py.bool true),
     ("post", Py.dict [("title", Py.str "T"), ("url", Py.str "https://u")])])])]

/-- An environment in which the publication resolves and the publish
mutation would report success. -/
def envSuccess : Env :=
  ⟨HttpResult.resp 200 (Except.ok meDataHosted),
   HttpResult.resp 200 (Except.ok (Py.dict [("data", Py.dict [("publication", Py.none)])])),
   HttpResult.resp 200 (Except.ok publishOkData)⟩

/-- C1 counterexample.  A batch whose only file is skipped for
`ignorePost: true` exits with status 1 even though no file ever reached the
publish step (the injected mutation response would even have succeeded):
the skip is recorded as `success = False` and `main` exits 1 on any falsy
result, refuting "a skipped file does not affect the process exit status,
which is 1 only when some file reached the publish step and the publish
returned failure". -/
theorem c1_counterexample :
    mainRun loaderIgnore
      [⟨"post.md", "post.md", true, some "---\nignorePost: true\n---\nbody", envSuccess⟩] =
      Except.ok ⟨[("post.md", Py.bool false)], true, 1⟩ := rfl

/-- C1 (corrected).  A file whose frontmatter has a truthy `ignorePost` is
skipped before the publish step — its outcome is `False` for *every*
injected network environment, so no publish request is consulted — but the
skip is recorded as a failure and a run containing (only) it exits with
status 1. -/
theorem c1_skip_counted_as_failure (loader : String → Except Unit Py)
    (name content : String) (kvs : List (String × Py)) (body : String)
    (h₁ : name ≠ "README.md") (h₂ : name ≠ "SETUP.md")
    (hparse : parse_frontmatter loader content = (Py.dict kvs, body))
    (hig : truthy ((List.lookup "ignorePost" kvs).getD (Py.bool false)) = true) :
    (∀ env : Env, process_markdown_file loader env name (some content) =
      Except.ok (Py.bool false)) ∧
    (∀ (env : Env) (path : String),
      mainRun loader [⟨path, name, true, some content, env⟩] =
        Except.ok ⟨[(path, Py.bool false)], true, 1⟩) := by
  have hb₁ : (name == "README.md") = false := beq_eq_false_iff_ne.mpr h₁
  have hb₂ : (name == "SETUP.md") = false := beq_eq_false_iff_ne.mpr h₂
  have hproc : ∀ env : Env, process_markdown_file loader env name (some content) =
      Except.ok (Py.bool false) := by
    intro env
    rw [process_markdown_file]
    rw [if_neg (by rw [hb₁]; exact Bool.false_ne_true),
      if_neg (by rw [hb₂]; exact Bool.false_ne_true)]
    rw [hparse]
    cases ht : truthy (Py.dict kvs) with
    | false => simp [ht, Pure.pure, Except.pure]
    | true => simp [ht, pyGet, Bind.bind, Except.bind, hig, Pure.pure, Except.pure]
  refine ⟨hproc, ?_⟩
  intro env path
  rw [mainRun_single loader ⟨path, name, true, some content, env⟩ (Py.bool false) rfl
    (hproc env)]
  rfl

/-- C1 witness: the amended statement applied to the concrete `ignorePost`
file, under an environment whose publish mutation would succeed. -/
theorem c1_skip_counted_as_failure_witness :
    mainRun loaderIgnore
      [⟨"b.md", "b.md", true, some "---\nignorePost: true\n---\nbody", envSuccess⟩] =
      Except.ok ⟨[("b.md", Py.bool false)], true, 1⟩ :=
  (c1_skip_counted_as_failure loaderIgnore "b.md" "---\nignorePost: true\n---\nbody"
    [("ignorePost", Py.bool true)] "body" (by decide) (by decide) rfl rfl).2 envSuccess "b.md"

/-!  C2 — missing `title`, `slug` or `domain` -/

/-- The YAML loader used by the C2 inputs (frontmatter with a title only). -/
def loaderTitleOnly : String → Except Unit Py :=
  fun s =>
    if s = "title: T" then Except.ok (Py.dict [("title", Py.str "T")])
    else Except.error ()

/-- C2 counterexample.  A batch whose only file is skipped for a missing
`domain` exits with status 1: the skip is recorded as `success = False`, so
the exit status is *not* unaffected by such files. -/
theorem c2_counterexample :
    mainRun loaderTitleOnly
      [⟨"a.md", "a.md", true, some "---\ntitle: T\n---\nbody", envSuccess⟩] =
      Except.ok ⟨[("a.md", Py.bool false)], true, 1⟩ := rfl

/-- C2 (corrected).  A missing `domain` skips the file before the publish
step (for every environment); a missing `slug` or `title` does *not* skip
the file: processing proceeds into `publish_post` (the publication is even
resolved first) and fails there with `False`; and in all cases the falsy
result makes a run containing the file exit 1 rather than leaving the exit
status unaffected. -/
theorem c2_missing_required_fields :
    (∀ (loader : String → Except Unit Py) (env : Env) (name content body : String)
       (kvs : List (String × Py)),
      name ≠ "README.md" → name ≠ "SETUP.md" →
      parse_frontmatter loader content = (Py.dict kvs, body) →
      List.lookup "domain" kvs = Option.none →
      process_markdown_file loader env name (some content) = Except.ok (Py.bool false)) ∧
    (∀ (env : Env) (kvs : List (String × Py)) (content domain ts : String) (p : Py),
      List.lookup "title" kvs = some (Py.str ts) →
      List.lookup "slug" kvs = Option.none →
      get_publication_id env domain = Except.ok p →
      publish_post env (Py.dict kvs) content domain = Except.ok (Py.bool false)) ∧
    (∀ (env : Env) (kvs : List (String × Py)) (content domain : String) (p : Py),
      List.lookup "title" kvs = Option.none →
      get_publication_id env domain = Except.ok p →
      publish_post env (Py.dict kvs) content domain = Except.ok (Py.bool false)) ∧
    (∀ (loader : String → Except Unit Py) (f : BatchFile) (v : Py),
      f.fileExists = true →
      process_markdown_file loader f.env f.name f.contents = Except.ok v →
      truthy v = false →
      mainRun loader [f] = Except.ok ⟨[(f.path, v)], true, 1⟩) := by
  refine ⟨?_, ?_, ?_, ?_⟩
  · intro loader env name content body kvs h₁ h₂ hparse hdom
    rw [process_markdown_file]
    rw [if_neg (by rw [beq_eq_false_iff_ne.mpr h₁]; exact Bool.false_ne_true),
      if_neg (by rw [beq_eq_false_iff_ne.mpr h₂]; exact Bool.false_ne_true)]
    rw [hparse]
    cases ht : truthy (Py.dict kvs) with
    | false => simp [ht, Pure.pure, Except.pure]
    | true =>
      cases hig : truthy ((List.lookup "ignorePost" kvs).getD (Py.bool false)) with
      | true => simp [ht, pyGet, Bind.bind, Except.bind, hig, Pure.pure, Except.pure]
      | false => simp [ht, pyGet, Bind.bind, Except.bind, hig, hdom, Pure.pure, Except.pure]
  · intro env kvs content domain ts p htitle hslug hgp
    rw [publish_post, hgp]
    cases hpt : truthy p with
    | false => simp [Bind.bind, Except.bind, hpt, Pure.pure, Except.pure]
    | true =>
      simp [Bind.bind, Except.bind, hpt, pyGet, htitle, hslug, pyStripQuotes, truthy,
        Pure.pure, Except.pure]
  · intro env kvs content domain p htitle hgp
    rw [publish_post, hgp]
    cases hpt : truthy p with
    | false => simp [Bind.bind, Except.bind, hpt, Pure.pure, Except.pure]
    | true =>
      simp [Bind.bind, Except.bind, hpt, pyGet, htitle, pyStripQuotes, stripQuotes,
        stripBy, truthy, Pure.pure, Except.pure]
  · intro loader f v hex hp hv
    rw [mainRun_single loader f v hex hp, hv]
    rfl

/-- C2 witness: the amended behaviour at concrete inputs — a missing-domain
file skipped with a falsy record, a missing-slug frontmatter failing inside
`publish_post`, and the resulting exit status 1. -/
theorem c2_missing_required_fields_witness :
    process_markdown_file loaderTitleOnly envSuccess "a.md" (some "---\ntitle: T\n---\nbody") =
      Except.ok (Py.bool false) ∧
    publish_post envC4 (Py.dict [("title", Py.str "T")]) "body" "myblog.hashnode.dev" =
      Except.ok (Py.bool false) ∧
    mainRun loaderTitleOnly
      [⟨"a.md", "a.md", true, some "---\ntitle: T\n---\nbody", envSuccess⟩] =
      Except.ok ⟨[("a.md", Py.bool false)], true, 1⟩ :=
  ⟨c2_missing_required_fields.1 loaderTitleOnly envSuccess "a.md" "---\ntitle: T\n---\nbody"
    "body" [("title", Py.str "T")] (by decide) (by decide) rfl rfl,
   c2_missing_required_fields.2.1 envC4 [("title", Py.str "T")] "body"
    "myblog.hashnode.dev" "T" (Py.str "p1") rfl rfl rfl,
   c2_missing_required_fields.2.2.2 loaderTitleOnly
    ⟨"a.md", "a.md", true, some "---\ntitle: T\n---\nbody", envSuccess⟩ (Py.bool false) rfl
    (c2_missing_required_fields.1 loaderTitleOnly envSuccess "a.md" "---\ntitle: T\n---\nbody"
      "body" [("title", Py.str "T")] (by decide) (by decide) rfl rfl) rfl⟩

/-!  C3 — missing `slug` with valid title, domain and resolvable publication -/

/-- C3 (confirmed).  A file whose frontmatter has a truthy (string) title, a
truthy string domain and a resolvable publication, but no `slug` key, gets
past every skip rule, reaches `publish_post` and fails there at the
missing-required-field check; a run containing (only) this file exits with
status 1. -/
theorem c3_missing_slug (loader : String → Except Unit Py) (env : Env)
    (path name content : String) (kvs : List (String × Py)) (body ts d : String) (p : Py)
    (h₁ : name ≠ "README.md") (h₂ : name ≠ "SETUP.md")
    (hparse : parse_frontmatter loader content = (Py.dict kvs, body))
    (hig : truthy ((List.lookup "ignorePost" kvs).getD (Py.bool false)) = false)
    (hdom : List.lookup "domain" kvs = some (Py.str d))
    (hd : pyTrim d ≠ "")
    (htitle : List.lookup "title" kvs = some (Py.str ts))
    (hts : stripQuotes ts ≠ "")
    (hslug : List.lookup "slug" kvs = Option.none)
    (hgp : get_publication_id env (pyTrim d) = Except.ok p)
    (hp : truthy p = true) :
    process_markdown_file loader env name (some content) = Except.ok (Py.bool false) ∧
    mainRun loader [⟨path, name, true, some content, env⟩] =
      Except.ok ⟨[(path, Py.bool false)], true, 1⟩ := by
  have hdne : d ≠ "" := by
    intro h
    exact hd (by rw [h]; rfl)
  have hkvs : truthy (Py.dict kvs) = true := by
    cases kvs with
    | nil => cases hdom
    | cons x xs => rfl
  have hpub : publish_post env (Py.dict kvs) body (pyTrim d) = Except.ok (Py.bool false) := by
    rw [publish_post, hgp]
    simp [Bind.bind, Except.bind, hp, pyGet, htitle, hslug, pyStripQuotes, truthy, hts,
      Pure.pure, Except.pure]
  have hproc : process_markdown_file loader env name (some content) =
      Except.ok (Py.bool false) := by
    rw [process_markdown_file]
    rw [if_neg (by rw [beq_eq_false_iff_ne.mpr h₁]; exact Bool.false_ne_true),
      if_neg (by rw [beq_eq_false_iff_ne.mpr h₂]; exact Bool.false_ne_true)]
    rw [hparse]
    simp only [hkvs, Bool.not_true, Bool.false_eq_true, if_false, ite_false, ite_true,
      Bind.bind, Except.bind, pyGet, hig, hdom]
    simp only [List.lookup, hig, hdom, Option.getD]
    simp only [hig, hdom, truthy, pyStr, Bool.false_eq_true, if_false, ite_false]
    have hbne : (d != "") = true := by
      simp [bne, hdne]
    have hbe : ((pyTrim d : String) == "") = false := beq_eq_false_iff_ne.mpr hd
    rw [if_pos hbne, if_neg (by rw [hbe]; exact Bool.false_ne_true)]
    exact hpub
  exact ⟨hproc, by rw [mainRun_single loader ⟨path, name, true, some content, env⟩
    (Py.bool false) rfl hproc]; rfl⟩

/-- The YAML loader used by the C3 witness (title and domain, no slug). -/
def loaderNoSlug : String → Except Unit Py :=
  fun s =>
    if s = "title: T\ndomain: myblog.hashnode.dev" then
      Except.ok (Py.dict [("title", Py.str "T"), ("domain", Py.str "myblog.hashnode.dev")])
    else Except.error ()

/-- C3 witness: the concrete no-slug file under an environment where the
publication resolves to `p1`; processing returns `False` and the run exits
1. -/
theorem c3_missing_slug_witness :
    process_markdown_file loaderNoSlug envC4 "a.md"
      (some "---\ntitle: T\ndomain: myblog.hashnode.dev\n---\nbody") =
      Except.ok (Py.bool false) ∧
    mainRun loaderNoSlug
      [⟨"a.md", "a.md", true,
        some "---\ntitle: T\ndomain: myblog.hashnode.dev\n---\nbody", envC4⟩] =
      Except.ok ⟨[("a.md", Py.bool false)], true, 1⟩ :=
  c3_missing_slug loaderNoSlug envC4 "a.md" "a.md"
    "---\ntitle: T\ndomain: myblog.hashnode.dev\n---\nbody"
    [("title", Py.str "T"), ("domain", Py.str "myblog.hashnode.dev")] "body" "T"
    "myblog.hashnode.dev" (Py.str "p1") (by decide) (by decide) rfl rfl rfl (by decide)
    rfl (by decide) rfl rfl rfl

/-!  C8 — a non-mapping frontmatter makes an exception escape -/

/-- The YAML loader of the C8 failing input: the header `hello` parses to
the scalar string `"hello"`, not a mapping. -/
def loaderScalar : String → Except Unit Py :=
  fun s => if s = "hello" then Except.ok (Py.str "hello") else Except.error ()

/-- C8 (code bug).  The propagation policy says no exception escapes the
per-file processing step.  But for a file whose frontmatter block parses to
a truthy non-mapping YAML value (here the scalar `hello`), the value passes
the `if not frontmatter` guard and `frontmatter.get("ignorePost", False)`
raises an uncaught `AttributeError` that escapes `process_markdown_file`
and aborts the whole batch run — no boolean outcome is recorded. -/
theorem c8_exception_escape :
    process_markdown_file loaderScalar envSuccess "bad.md" (some "---\nhello\n---\nbody") =
      Except.error () ∧
    mainRun loaderScalar
      [⟨"bad.md", "bad.md", true, some "---\nhello\n---\nbody", envSuccess⟩] =
      Except.error () :=
  ⟨rfl, rfl⟩

/-!  C9 — a batch with zero eligible files -/

/-- C9 counterexample.  With an empty file list `main` prints and returns
*before* the report file is written: the exit status is 0 but no report —
not even an empty one — is produced, refuting "produces an empty report". -/
theorem c9_counterexample :
    mainRun (fun _ => Except.error ()) [] =
      Except.ok ⟨[], false, 0⟩ := rfl

/-- C9 (corrected).  A batch with no files at all exits 0 and writes no
report file; a batch whose listed files all fail the existence check writes
the report with no entries and exits 0. -/
theorem c9_zero_eligible_files :
    (∀ loader : String → Except Unit Py, mainRun loader [] = Except.ok ⟨[], false, 0⟩) ∧
    (∀ (loader : String → Except Unit Py) (files : List BatchFile),
      files ≠ [] → (∀ f ∈ files, f.fileExists = false) →
      mainRun loader files = Except.ok ⟨[], true, 0⟩) := by
  refine ⟨fun loader => rfl, ?_⟩
  intro loader files hne hall
  rw [mainRun, if_neg (by simp [List.isEmpty_iff, hne])]
  rw [processLoop_none loader files hall []]
  rfl

/-- C9 witness: a list holding one file that does not exist on disk yields
the written-but-empty report and exit status 0. -/
theorem c9_zero_eligible_files_witness :
    mainRun (fun _ => Except.error ())
      [⟨"gone.md", "gone.md", false, Option.none, envSuccess⟩] =
      Except.ok ⟨[], true, 0⟩ :=
  c9_zero_eligible_files.2 (fun _ => Except.error ())
    [⟨"gone.md", "gone.md", false, Option.none, envSuccess⟩] (by simp)
    (by
      intro f hf
      rw [List.mem_singleton] at hf
      subst hf
      rfl)

/-!  C10 — paths that do not exist on disk leave no record -/

/-- C10 (confirmed).  A listed path failing the existence check is passed
over with `continue`: the loop is unchanged by dropping such files, every
existing file contributes exactly one record, every record stems from an
existing file, and the exit status is computed from the recorded results
alone — so missing files appear nowhere in the report and never affect the
exit status, while every other kind of skip is recorded. -/
theorem c10_missing_files_unrecorded :
    (∀ (loader : String → Except Unit Py) (files : List BatchFile)
       (acc : List (String × Py)),
      processLoop loader files acc =
        processLoop loader (files.filter (fun f => f.fileExists)) acc) ∧
    (∀ (loader : String → Except Unit Py) (files : List BatchFile) (r : MainResult),
      mainRun loader files = Except.ok r →
      r.results.length = (files.filter (fun f => f.fileExists)).length ∧
      (∀ pv ∈ r.results, ∃ f ∈ files, f.fileExists = true ∧ f.path = pv.1) ∧
      r.exitCode = (if r.results.any (fun q => !truthy q.2) then 1 else 0)) := by
  refine ⟨fun loader files acc => processLoop_filter loader files acc, ?_⟩
  intro loader files r h
  rw [mainRun] at h
  by_cases hemp : files.isEmpty
  · rw [if_pos hemp] at h
    cases h
    refine ⟨?_, ?_, rfl⟩
    · rw [List.isEmpty_iff.mp hemp]
      rfl
    · intro pv hpv
      cases hpv
  · rw [if_neg hemp] at h
    cases hp : processLoop loader files [] with
    | error e =>
      rw [hp] at h
      cases h
    | ok res =>
      rw [hp] at h
      simp only [Bind.bind, Except.bind, Pure.pure, Except.pure] at h
      cases h
      refine ⟨?_, ?_, rfl⟩
      · have := processLoop_length loader files [] res hp
        simpa using this
      · intro pv hpv
        rcases processLoop_mem loader files [] res pv hp hpv with hacc | hex
        · cases hacc
        · exact hex

/-- C10 witness: the loop invariance and the record accounting evaluated on
a concrete two-file list (one existing, one missing). -/
theorem c10_missing_files_unrecorded_witness :
    processLoop loaderIgnore
      [⟨"gone.md", "gone.md", false, Option.none, envSuccess⟩,
       ⟨"post.md", "post.md", true, some "---\nignorePost: true\n---\nbody", envSuccess⟩] [] =
      processLoop loaderIgnore
        ([⟨"gone.md", "gone.md", false, Option.none, envSuccess⟩,
          ⟨"post.md", "post.md", true, some "---\nignorePost: true\n---\nbody", envSuccess⟩].filter
          (fun f => f.fileExists)) [] :=
  c10_missing_files_unrecorded.1 loaderIgnore
    [⟨"gone.md", "gone.md", false, Option.none, envSuccess⟩,
     ⟨"post.md", "post.md", true, some "---\nignorePost: true\n---\nbody", envSuccess⟩] []

end Hashnode
